import Mathlib

/-
Verification development for the browser authentication session manager and
gateway RPC client of the deepresearch-agentcore repository.

The embedding is shallow: each JavaScript function of the two core modules
(src/frontend/src/services/cyberark-auth.js and src/frontend/src/api-gateway.js,
plus the PKCE variant of the auth class embedded in the gateway setup guide)
is translated to a pure Lean function.  Browser storage (localStorage and
sessionStorage keys) becomes an explicit record threaded through the
operations; `fetch` outcomes become oracle parameters; JavaScript `throw`
becomes `Except`; JavaScript `undefined` becomes `Option.none`; timestamps
(`Date.now()`) are natural-number parameters in milliseconds.
-/

/-- Model of a JavaScript JSON value.  Numbers are embedded as naturals,
which covers every numeric value the modelled code produces or inspects
(`expires_in`, array lengths, status codes). -/
inductive Json where
  | null
  | bool (b : Bool)
  | num (n : Nat)
  | str (s : String)
  | arr (elems : List Json)
  | obj (fields : List (String × Json))

/-- JavaScript truthiness of a JSON value: `null`, `false`, `0` and the
empty string are falsy; every array and object is truthy. -/
def Json.truthy : Json → Bool
  | .null => false
  | .bool b => b
  | .num n => n != 0
  | .str s => s != ""
  | .arr _ => true
  | .obj _ => true

/-- Truthiness of a possibly-undefined JavaScript value (`undefined` is
falsy). -/
def Json.truthyOpt : Option Json → Bool
  | none => false
  | some j => j.truthy

/-- First binding of a key in an object field list. -/
def Json.lookupField : List (String × Json) → String → Option Json
  | [], _ => none
  | (k, v) :: rest, key => if k = key then some v else Json.lookupField rest key

/-- Property access `j.k` on a defined, non-null value: objects yield the
named field (or `undefined`), primitives and arrays yield `undefined`.
Access on `null`/`undefined` is modelled separately at the call sites,
since in JavaScript it throws `TypeError`. -/
def Json.getProp (j : Json) (k : String) : Option Json :=
  match j with
  | .obj fields => Json.lookupField fields k
  | _ => none

/-- Index access `j[0]`: first element of an array (or `undefined` when
empty), first character of a string, field `"0"` of an object, otherwise
`undefined`. -/
def Json.index0 (j : Json) : Option Json :=
  match j with
  | .arr (x :: _) => some x
  | .arr [] => none
  | .str s => if s = "" then none else some (.str (s.take 1))
  | .obj fields => Json.lookupField fields "0"
  | _ => none

/-- JavaScript truthiness of a string-or-null value as read from web
storage: `null` and the empty string are falsy. -/
def strTruthy : Option String → Bool
  | none => false
  | some s => s != ""

namespace CyberArkAuth

/-
Embedding of src/frontend/src/services/cyberark-auth.js (class CyberArkAuth).
-/

/-- Browser storage as seen by the frontend auth service: localStorage keys
cyberark_access_token and cyberark_token_expiry, the (never written by this
class) localStorage key cyberark_refresh_token, and the sessionStorage key
oauth_state.  A `none` field means the key is absent.  The expiry key holds
the decimal rendering of an epoch-milliseconds value; it is modelled as the
number itself, since `toString`/`parseInt` round-trip it exactly. -/
structure Session where
  accessToken : Option String
  refreshToken : Option String
  tokenExpiry : Option Nat
  oauthState : Option String
deriving Repr, DecidableEq

/-- Empty storage: no keys set. -/
def Session.empty : Session :=
  { accessToken := none, refreshToken := none, tokenExpiry := none, oauthState := none }

/-- getAccessToken: `localStorage.getItem('cyberark_access_token')`. -/
def getAccessToken (s : Session) : Option String :=
  s.accessToken

/-- isAuthenticated (cyberark-auth.js lines 17-26): false when the stored
token is falsy; false when the expiry key is absent; otherwise
`Date.now() < parseInt(expiry)`. -/
def isAuthenticated (s : Session) (now : Nat) : Bool :=
  if ! strTruthy (getAccessToken s) then false
  else
    match s.tokenExpiry with
    | none => false
    | some expiry => now < expiry

/-- login (lines 38-56): stores a freshly generated random state under
sessionStorage key oauth_state, then redirects the page to the
authorization endpoint.  The redirect leaves the application, so the
session mutation is the whole observable effect; the generated random
string is a parameter. -/
def login (s : Session) (state : String) : Session :=
  { s with oauthState := some state }

/-- storeTokens (lines 123-130): writes the access token and the computed
expiry `Date.now() + expiresIn * 1000`.  The refreshToken argument is
accepted but never written to storage, exactly as in the source. -/
def storeTokens (s : Session) (accessToken : String) (_refreshToken : Option String)
    (expiresIn : Nat) (now : Nat) : Session :=
  { s with accessToken := some accessToken, tokenExpiry := some (now + expiresIn * 1000) }

/-- logout (lines 135-141): removes the access token, the expiry and the
pending oauth_state.  The cyberark_refresh_token key is not touched (this
class never writes it either). -/
def logout (s : Session) : Session :=
  { s with accessToken := none, tokenExpiry := none, oauthState := none }

/-- Query parameters of the callback URL, as returned by
`URLSearchParams.get`: `none` models an absent parameter (JS `null`). -/
structure Query where
  code : Option String
  state : Option String
  error : Option String
deriving Repr, DecidableEq

/-- Errors thrown by handleCallback, one constructor per `throw` site. -/
inductive AuthError where
  /-- OAuth error: the provider reported an error parameter. -/
  | providerError (e : String)
  /-- No authorization code received. -/
  | missingCode
  /-- Invalid state parameter - possible CSRF attack. -/
  | csrfError
  /-- Token exchange failed, carrying the response body text. -/
  | tokenExchangeError (body : String)
deriving Repr, DecidableEq

/-- Body of a successful token-endpoint response. -/
structure TokenData where
  access_token : String
  refresh_token : Option String
  expires_in : Nat
deriving Repr, DecidableEq

/-- handleCallback (lines 61-118).  Checks the error parameter, then the
code, then compares the returned state against the stored oauth_state with
strict equality (`state !== savedState`, where both sides may be JS null).
Past the checks it POSTs the code to the backend token-exchange endpoint;
the outcome is the `exchange` oracle (`Except.error body` models a
non-ok HTTP response with body text `body`).  On success it stores the
tokens, removes oauth_state and returns the access token.  The function
returns the thrown-or-returned outcome together with the storage state
after the call. -/
def handleCallback (s : Session) (q : Query) (now : Nat)
    (exchange : Except String TokenData) : Except AuthError String × Session :=
  if strTruthy q.error then
    (.error (.providerError (q.error.getD "")), s)
  else if ! strTruthy q.code then
    (.error .missingCode, s)
  else if q.state ≠ s.oauthState then
    (.error .csrfError, s)
  else
    match exchange with
    | .error body => (.error (.tokenExchangeError body), s)
    | .ok td =>
      let s1 := storeTokens s td.access_token td.refresh_token td.expires_in now
      (.ok td.access_token, { s1 with oauthState := none })

end CyberArkAuth

namespace ApiGateway

/-
Embedding of src/frontend/src/api-gateway.js.
-/

/-- Decimal rendering of a natural number, least-significant digit last,
with a fuel argument bounding the recursion depth (any fuel above the
digit count gives the full rendering). -/
def toDecimalCore (fuel n : Nat) : List Char :=
  match fuel with
  | 0 => []
  | fuel' + 1 =>
    if n < 10 then [Nat.digitChar n]
    else toDecimalCore fuel' (n / 10) ++ [Nat.digitChar (n % 10)]

/-- Decimal rendering of a natural number, the JavaScript string
interpolation of a non-negative number such as `Date.now()`. -/
def natDecimal (n : Nat) : String :=
  ⟨toDecimalCore (n + 1) n⟩

/-- Value of a list of decimal digit characters, most significant first;
the left inverse of the decimal rendering, used to prove it injective. -/
def decValue (cs : List Char) : Nat :=
  cs.foldl (fun acc c => acc * 10 + (c.toNat - 48)) 0

/-- Identifier of a JSON-RPC request (api-gateway.js line 27):
the template literal interpolating the method name and `Date.now()`. -/
def rpcId (method : String) (now : Nat) : String :=
  method ++ "-" ++ natDecimal now

/-- One invocation of callGateway, identified by its method, params and the
value of `Date.now()` (in milliseconds) at envelope construction time. -/
structure Invocation where
  method : String
  params : Json
  time : Nat

/-- Identifier assigned to an invocation by callGateway. -/
def invocationId (i : Invocation) : String :=
  rpcId i.method i.time

/-- JSON-RPC 2.0 envelope built by callGateway (lines 25-30). -/
def rpcPayload (method : String) (params : Json) (now : Nat) : Json :=
  .obj [("jsonrpc", .str "2.0"), ("id", .str (rpcId method now)),
        ("method", .str method), ("params", params)]

/-- Outcome of the `fetch` to the gateway: either the promise rejects
(network failure), or a response arrives with a status code, a body text,
and the result of parsing the body as JSON (`none` when `response.json()`
would reject). -/
inductive HttpOutcome where
  | networkFailure (msg : String)
  | response (status : Nat) (body : String) (parsed : Option Json)

/-- Errors thrown by callGateway, one constructor per throw site. -/
inductive GatewayError where
  /-- Authentication required: no access token was stored. -/
  | authRequired
  /-- Session expired, please log in again: the gateway returned 401. -/
  | sessionExpired
  /-- Gateway error with status and body text, for non-ok non-401 statuses. -/
  | httpError (status : Nat) (body : String)
  /-- Response body was not valid JSON. -/
  | parseError
  /-- Gateway error: the decoded envelope carried a truthy error field. -/
  | rpcError (e : Option Json)
  /-- The fetch promise rejected. -/
  | network (msg : String)

/-- Result of one callGateway invocation: the returned-or-thrown value,
the storage state after the call, and whether `cyberarkAuth.login()` was
invoked during the call (its full effect is a page redirect plus the
session mutation recorded in `session`). -/
structure CallResult where
  result : Except GatewayError Json
  session : CyberArkAuth.Session
  loginInvoked : Bool

/-- HTTP success predicate `response.ok`: status in 200..299. -/
def httpOk (status : Nat) : Bool :=
  200 ≤ status && status ≤ 299

/-- callGateway (lines 14-71).  With no (truthy) stored access token it
invokes login() and throws.  Otherwise it POSTs the JSON-RPC envelope; on
status 401 it invokes logout() then login() and throws; on other non-ok
statuses it throws with the body text; on an ok status it decodes the
body, throws when decoding fails or when the envelope has a truthy error
field, and otherwise returns the decoded envelope.  `fresh` is the random
state login() would generate if invoked. -/
def callGateway (s : CyberArkAuth.Session) (fresh : String)
    (_method : String) (_params : Json) (_now : Nat)
    (outcome : HttpOutcome) : CallResult :=
  if ! strTruthy (CyberArkAuth.getAccessToken s) then
    { result := .error .authRequired, session := CyberArkAuth.login s fresh,
      loginInvoked := true }
  else
    match outcome with
    | .networkFailure msg =>
      { result := .error (.network msg), session := s, loginInvoked := false }
    | .response status body parsed =>
      if status = 401 then
        { result := .error .sessionExpired,
          session := CyberArkAuth.login (CyberArkAuth.logout s) fresh,
          loginInvoked := true }
      else if ! httpOk status then
        { result := .error (.httpError status body), session := s, loginInvoked := false }
      else
        match parsed with
        | none => { result := .error .parseError, session := s, loginInvoked := false }
        | some data =>
          if Json.truthyOpt (data.getProp "error") then
            { result := .error (.rpcError (data.getProp "error")), session := s,
              loginInvoked := false }
          else
            { result := .ok data, session := s, loginInvoked := false }

/-- Optional-chaining property access `el?.text`: `undefined` when the
receiver is `undefined` or `null`, ordinary property access otherwise. -/
def optChainProp (el : Option Json) (k : String) : Option Json :=
  match el with
  | none => none
  | some .null => none
  | some j => j.getProp k

/-- Envelope-unwrap algorithm shared verbatim by runCouncil (api-gateway.js
lines 104-127) and runDxO (lines 146-164), applied to the value `result`
returned by callTool (which is `response.result`, possibly `undefined`).
The guard is `result.content && result.content[0]?.text`, both conjuncts
JavaScript truthiness tests; when it fails the raw `result` is returned.
When it holds, `result.content[0].text` is passed to `JSON.parse`, whose
outcome is the oracle `parse` (`none` models a parse exception).  A parse
failure - or a parsed `null`/`undefined`, on which the subsequent
`lambdaResponse.output` access throws inside the same try block - yields
the error `Invalid response format from agent`.  Otherwise `parsed.output`
is returned when truthy, else the parsed value itself.  Accessing
`.content` on an `undefined` or `null` result throws an uncaught
TypeError, modelled by the typeError constructor. -/
def unwrapToolResult (result : Option Json) (parse : Json → Option Json) :
    Except String (Option Json) :=
  match result with
  | none => .error "TypeError: cannot read content of undefined"
  | some .null => .error "TypeError: cannot read content of null"
  | some r =>
    let content := r.getProp "content"
    let textVal : Option Json :=
      if Json.truthyOpt content then
        match content with
        | some c => optChainProp c.index0 "text"
        | none => none
      else none
    match textVal with
    | some tv =>
      if tv.truthy then
        match parse tv with
        | none => .error "Invalid response format from agent"
        | some .null => .error "Invalid response format from agent"
        | some parsed =>
          if Json.truthyOpt (parsed.getProp "output") then
            .ok (parsed.getProp "output")
          else .ok (some parsed)
      else .ok (some r)
    | none => .ok (some r)

/-- Value of `tools.tools?.length || 0` in healthCheck, given the value of
`tools.tools`: length of an array or string, the numeric length field of
an object when present, and 0 for every falsy or length-less value
(`undefined?.length` and `null?.length` are `undefined`, hence 0). -/
def jsLengthOrZero : Option Json → Nat
  | none => 0
  | some .null => 0
  | some (.arr elems) => elems.length
  | some (.str s) => s.length
  | some (.num _) => 0
  | some (.bool _) => 0
  | some (.obj fields) =>
    match Json.lookupField fields "length" with
    | some (.num n) => n
    | _ => 0

/-- Status object returned by healthCheck. -/
inductive HealthResult where
  | healthy (gateway : String) (tools : Nat)
  | errorStatus (msg : String)
deriving Repr, DecidableEq

/-- healthCheck (lines 174-188).  The oracle is the outcome of
`listTools()`: `Except.error msg` when it threw an error with message
`msg`, `Except.ok v` when it returned `v` (which is `response.result` of
the tools/list call, so `none` models an absent result key).  On a thrown
error the catch block reports status error.  On success the expression
`tools.tools?.length || 0` is evaluated: when `tools` is `undefined` or
`null` the `.tools` access throws a TypeError, which the same catch block
converts to a status-error report; otherwise the call reports healthy with
the computed count. -/
def healthCheck (outcome : Except String (Option Json)) : HealthResult :=
  match outcome with
  | .error msg => .errorStatus msg
  | .ok none => .errorStatus "TypeError: cannot read tools of undefined"
  | .ok (some .null) => .errorStatus "TypeError: cannot read tools of null"
  | .ok (some tools) => .healthy "connected" (jsLengthOrZero (tools.getProp "tools"))

end ApiGateway

namespace CyberArkAuthDoc

/-
Embedding of the PKCE variant of the CyberArkAuth class, from the gateway
setup guide (src/unnamed/part_003, Client Implementation section); this is
the class whose refreshAccessToken claim C8 cites.
-/

/-- Browser storage as seen by the PKCE variant: localStorage keys
cyberark_access_token, cyberark_refresh_token and cyberark_token_expiry,
and sessionStorage keys pkce_verifier and oauth_state. -/
structure Session where
  accessToken : Option String
  refreshToken : Option String
  tokenExpiry : Option Nat
  pkceVerifier : Option String
  oauthState : Option String
deriving Repr, DecidableEq

/-- Body of a token-endpoint JSON response carrying a token pair. -/
structure TokenData where
  access_token : String
  refresh_token : String
  expires_in : Nat
deriving Repr, DecidableEq

/-- storeTokens (part_003 lines 312-317): writes all three token keys;
the expiry is `Date.now() + expiresIn * 1000`. -/
def storeTokens (s : Session) (accessToken refreshToken : String)
    (expiresIn now : Nat) : Session :=
  { s with accessToken := some accessToken, refreshToken := some refreshToken,
           tokenExpiry := some (now + expiresIn * 1000) }

/-- getAccessToken (lines 319-328): returns null when the stored token is
falsy or `Date.now() >= parseInt(expiry)`.  When the expiry key is absent,
`parseInt(null)` is NaN and the comparison is false, so the token is
returned. -/
def getAccessToken (s : Session) (now : Nat) : Option String :=
  if ! strTruthy s.accessToken then none
  else
    match s.tokenExpiry with
    | none => s.accessToken
    | some expiry => if now ≥ expiry then none else s.accessToken

/-- Form body of the refresh request (lines 338-342).  `URLSearchParams`
renders a JS null value as the string null, so an absent stored refresh
token is sent as the literal text null. -/
structure RefreshRequest where
  grant_type : String
  refresh_token : String
  client_id : String
deriving Repr, DecidableEq

/-- Request body constructed by refreshAccessToken. -/
def refreshRequest (s : Session) (clientId : String) : RefreshRequest :=
  { grant_type := "refresh_token",
    refresh_token := s.refreshToken.getD "null",
    client_id := clientId }

/-- refreshAccessToken (lines 330-349).  The stored refresh token is read
without checking that one exists; the response status is never checked
(`response.ok` is not consulted); the only failure is `response.json()`
rejecting, modelled by the oracle `resp = Except.error msg`.  Whatever
token data the body carries is stored and the access token returned. -/
def refreshAccessToken (s : Session) (now : Nat)
    (resp : Except String TokenData) : Except String String × Session :=
  match resp with
  | .error msg => (.error msg, s)
  | .ok d => (.ok d.access_token, storeTokens s d.access_token d.refresh_token d.expires_in now)

end CyberArkAuthDoc

section AuthTheorems

open CyberArkAuth

/-- Helper: the CSRF branch of handleCallback.  When the query carries no
truthy error parameter, a truthy code, and a state differing from the
stored pending state, the call rejects and leaves the storage unchanged. -/
theorem handleCallback_csrf_case (s : Session) (q : Query) (now : Nat)
    (exchange : Except String TokenData)
    (hcode : strTruthy q.code = true)
    (hmismatch : q.state ≠ s.oauthState)
    (herr : strTruthy q.error = false) :
    handleCallback s q now exchange = (.error .csrfError, s) := by
  unfold handleCallback
  simp [herr, hcode, hmismatch]

/-- Helper: the success branch of handleCallback.  When all checks pass
and the exchange succeeds, the call stores the access token and expiry,
clears the pending state, keeps the refresh-token key as it was, and
returns the new access token. -/
theorem handleCallback_ok_case (s : Session) (q : Query) (now : Nat)
    (td : TokenData)
    (hcode : strTruthy q.code = true)
    (hmatch : q.state = s.oauthState)
    (herr : strTruthy q.error = false) :
    handleCallback s q now (.ok td) =
      (.ok td.access_token,
        { accessToken := some td.access_token,
          refreshToken := s.refreshToken,
          tokenExpiry := some (now + td.expires_in * 1000),
          oauthState := none }) := by
  unfold handleCallback storeTokens
  simp [herr, hcode, hmatch]

/-- C1: every handleCallback invocation whose query carries a (truthy)
code and a state value that is not string-equal to the stored pending
state - including when no pending state is stored at all - fails with the
CSRF error, and the storage is left entirely unchanged, so in particular
no access token and no expiry are written.  The provider-error check
precedes the state check in the source, so the query is one in which the
provider did not report an error parameter. -/
theorem csrf_mismatch_rejects (s : Session) (q : Query) (now : Nat)
    (exchange : Except String TokenData)
    (hcode : strTruthy q.code = true)
    (hstate : q.state.isSome)
    (hmismatch : q.state ≠ s.oauthState)
    (herr : strTruthy q.error = false) :
    handleCallback s q now exchange = (.error .csrfError, s) :=
  handleCallback_csrf_case s q now exchange hcode hmismatch herr

/-- Witness for C1: a concrete callback with state xyz999 against stored
state abc123 is rejected and the session is unchanged. -/
theorem csrf_mismatch_rejects_witness :
    handleCallback { Session.empty with oauthState := some "abc123" }
      { code := some "ABC", state := some "xyz999", error := none }
      0 (.ok ⟨"T1", some "R1", 3600⟩)
      = (.error .csrfError, { Session.empty with oauthState := some "abc123" }) :=
  csrf_mismatch_rejects _ _ _ _ rfl rfl (by decide) rfl

/-- C10: a callback invocation with a truthy code, no state parameter and
no stored pending state passes the strict state comparison (null equals
null) and proceeds to the token exchange: its outcome is never the CSRF
error and is fully determined by the exchange outcome. -/
theorem stateless_callback_proceeds (s : Session) (q : Query) (now : Nat)
    (exchange : Except String TokenData)
    (hcode : strTruthy q.code = true)
    (hstate : q.state = none)
    (hpending : s.oauthState = none)
    (herr : strTruthy q.error = false) :
    (handleCallback s q now exchange).1 ≠ .error .csrfError ∧
    (∀ body, exchange = .error body →
      handleCallback s q now exchange = (.error (.tokenExchangeError body), s)) ∧
    (∀ td, exchange = .ok td →
      (handleCallback s q now exchange).1 = .ok td.access_token) := by
  unfold handleCallback
  simp [herr, hcode, hstate, hpending]
  cases exchange with
  | error body => simp
  | ok td => simp

/-- Witness for C10: with code ABC, no state parameter and empty storage,
the callback reaches the exchange and returns the exchanged token. -/
theorem stateless_callback_proceeds_witness :
    (handleCallback Session.empty
      { code := some "ABC", state := none, error := none }
      0 (.ok ⟨"T1", some "R1", 3600⟩)).1 = .ok "T1" :=
  (stateless_callback_proceeds Session.empty
      { code := some "ABC", state := none, error := none }
      0 (.ok ⟨"T1", some "R1", 3600⟩) rfl rfl rfl rfl).2.2
    ⟨"T1", some "R1", 3600⟩ rfl

/-- Counterexample to C4: a fully successful callback (code ABC, matching
state S1, exchange returning access token T1, refresh token R1 and
expires_in 3600) returns the access token but leaves the refresh-token
storage key absent: storeTokens never writes the refresh token it is
handed. -/
theorem refresh_token_not_stored_counterexample :
    (handleCallback { Session.empty with oauthState := some "S1" }
      { code := some "ABC", state := some "S1", error := none }
      1000 (.ok ⟨"T1", some "R1", 3600⟩)).1 = .ok "T1" ∧
    (handleCallback { Session.empty with oauthState := some "S1" }
      { code := some "ABC", state := some "S1", error := none }
      1000 (.ok ⟨"T1", some "R1", 3600⟩)).2.refreshToken = none := by
  constructor <;> rfl

/-- C4 as amended: every successful handleCallback stores the returned
access token, stores the expiry now + expires_in * 1000, clears the
pending state and returns the new access token; the refresh token
returned by the token endpoint is passed to storeTokens but not
persisted, so the refresh-token storage key keeps its previous value. -/
theorem callback_success_stores (s : Session) (q : Query) (now : Nat)
    (td : TokenData)
    (hcode : strTruthy q.code = true)
    (hmatch : q.state = s.oauthState)
    (herr : strTruthy q.error = false) :
    handleCallback s q now (.ok td) =
      (.ok td.access_token,
        { accessToken := some td.access_token,
          refreshToken := s.refreshToken,
          tokenExpiry := some (now + td.expires_in * 1000),
          oauthState := none }) :=
  handleCallback_ok_case s q now td hcode hmatch herr

/-- Witness for C4 as amended: the concrete successful callback stores
token T1 with expiry 3601000 and clears the pending state, leaving the
refresh-token key absent. -/
theorem callback_success_stores_witness :
    handleCallback { Session.empty with oauthState := some "S1" }
      { code := some "ABC", state := some "S1", error := none }
      1000 (.ok ⟨"T1", some "R1", 3600⟩)
      = (.ok "T1",
          { accessToken := some "T1", refreshToken := none,
            tokenExpiry := some 3601000, oauthState := none }) :=
  callback_success_stores _ _ _ _ rfl rfl rfl

/-- Counterexample to C5: a failing handleCallback does not clear the
pending state.  Concretely, a callback rejected by the CSRF check (stored
state S1, returned state XYZ) leaves oauth_state still set to S1; the
claim requires it to be cleared after every invocation. -/
theorem failed_callback_keeps_state_counterexample :
    (handleCallback { Session.empty with oauthState := some "S1" }
      { code := some "ABC", state := some "XYZ", error := none }
      0 (.ok ⟨"T1", some "R1", 3600⟩)).2.oauthState = some "S1" ∧
    some "S1" ≠ (none : Option String) := by
  constructor
  · rfl
  · decide

/-- C5 as amended: only a successful handleCallback consumes the pending
state: after it, oauth_state is cleared, and a duplicate invocation with
the same query string (which carries a state parameter) fails with the
CSRF error and changes nothing; after a failed callback the pending state
remains. -/
theorem callback_success_consumes_state (s : Session) (q : Query)
    (now now2 : Nat) (td : TokenData) (exchange2 : Except String TokenData)
    (hcode : strTruthy q.code = true)
    (hstate : q.state.isSome)
    (hmatch : q.state = s.oauthState)
    (herr : strTruthy q.error = false) :
    (handleCallback s q now (.ok td)).2.oauthState = none ∧
    handleCallback (handleCallback s q now (.ok td)).2 q now2 exchange2
      = (.error .csrfError, (handleCallback s q now (.ok td)).2) := by
  have hpost := handleCallback_ok_case s q now td hcode hmatch herr
  rw [hpost]
  refine ⟨rfl, ?_⟩
  apply handleCallback_csrf_case _ _ _ _ hcode ?_ herr
  simp only []
  rw [hmatch] at hstate ⊢
  intro hcontra
  rw [hcontra] at hstate
  simp at hstate

/-- Witness for C5 as amended: after the concrete successful callback the
pending state is cleared and replaying the same query is CSRF-rejected. -/
theorem callback_success_consumes_state_witness :
    (handleCallback { Session.empty with oauthState := some "S1" }
      { code := some "ABC", state := some "S1", error := none }
      1000 (.ok ⟨"T1", some "R1", 3600⟩)).2.oauthState = none ∧
    handleCallback
      (handleCallback { Session.empty with oauthState := some "S1" }
        { code := some "ABC", state := some "S1", error := none }
        1000 (.ok ⟨"T1", some "R1", 3600⟩)).2
      { code := some "ABC", state := some "S1", error := none }
      2000 (.ok ⟨"T2", some "R2", 3600⟩)
      = (.error .csrfError,
          (handleCallback { Session.empty with oauthState := some "S1" }
            { code := some "ABC", state := some "S1", error := none }
            1000 (.ok ⟨"T1", some "R1", 3600⟩)).2) :=
  callback_success_consumes_state _ _ _ _ _ _ rfl rfl rfl rfl

end AuthTheorems

section ExpiryTheorems

open CyberArkAuth

/-- C6: isAuthenticated is a pure function of the storage snapshot and the
current time (it takes and returns no mutated session and involves no
network oracle).  It is false whenever the stored expiry is absent or is
less than or equal to the current time, regardless of the access token;
and it is true exactly when an access token is present (a non-empty token
string, which is the truthiness test the code applies) and the current
time is strictly before the stored expiry. -/
theorem isAuthenticated_spec (s : Session) (now : Nat) :
    (s.tokenExpiry = none → isAuthenticated s now = false) ∧
    (∀ e, s.tokenExpiry = some e → e ≤ now → isAuthenticated s now = false) ∧
    (isAuthenticated s now = true ↔
      strTruthy s.accessToken = true ∧ ∃ e, s.tokenExpiry = some e ∧ now < e) := by
  unfold isAuthenticated getAccessToken
  refine ⟨?_, ?_, ?_⟩
  · intro h
    rw [h]
    cases strTruthy s.accessToken <;> simp
  · intro e he hle
    rw [he]
    cases strTruthy s.accessToken <;> simp <;> omega
  · cases htok : strTruthy s.accessToken with
    | false => simp [htok]
    | true =>
      cases hexp : s.tokenExpiry with
      | none => simp [htok, hexp]
      | some e => simp [htok, hexp]

/-- Witness for C6: with token T stored and expiry 10, the probe at time
10 is false (expiry elapsed) and the probe at time 9 is true. -/
theorem isAuthenticated_spec_witness :
    isAuthenticated
      { accessToken := some "T", refreshToken := none,
        tokenExpiry := some 10, oauthState := none } 10 = false ∧
    isAuthenticated
      { accessToken := some "T", refreshToken := none,
        tokenExpiry := some 10, oauthState := none } 9 = true := by
  constructor
  · exact (isAuthenticated_spec
      { accessToken := some "T", refreshToken := none,
        tokenExpiry := some 10, oauthState := none } 10).2.1 10 rfl (by decide)
  · exact (isAuthenticated_spec
      { accessToken := some "T", refreshToken := none,
        tokenExpiry := some 10, oauthState := none } 9).2.2.mpr
      ⟨rfl, 10, rfl, by decide⟩

end ExpiryTheorems

section GatewayCallTheorems

open ApiGateway

/-- Counterexample to C2: callGateway does initiate re-authentication
itself.  On a concrete 401 response with a stored token T, the call
invokes login() after the logout (the loginInvoked flag is set and a fresh
pending state F is stored), contradicting the claim that login() is never
invoked internally on a 401. -/
theorem gateway_401_invokes_login_counterexample :
    (callGateway
      { accessToken := some "T", refreshToken := none,
        tokenExpiry := some 99999, oauthState := none }
      "F" "tools/list" (Json.obj []) 5
      (.response 401 "unauthorized" none)).loginInvoked = true ∧
    (callGateway
      { accessToken := some "T", refreshToken := none,
        tokenExpiry := some 99999, oauthState := none }
      "F" "tools/list" (Json.obj []) 5
      (.response 401 "unauthorized" none)).session.oauthState = some "F" := by
  constructor <;> rfl

/-- C2 as amended: on an HTTP 401, callGateway clears the stored session
(logout: the access token and expiry keys are removed, so isAuthenticated
is false at every time) and fails with the session-expired error, but it
also invokes login() internally, storing a fresh pending state and
redirecting; likewise, when no truthy access token is stored before the
request, it invokes login() and fails with the authentication-required
error rather than performing the call. -/
theorem gateway_auth_failure_behavior (s : CyberArkAuth.Session)
    (fresh method : String) (params : Json) (now : Nat)
    (body : String) (parsed : Option Json) :
    (strTruthy s.accessToken = true →
      callGateway s fresh method params now (.response 401 body parsed) =
        { result := .error .sessionExpired,
          session := { accessToken := none, refreshToken := s.refreshToken,
                       tokenExpiry := none, oauthState := some fresh },
          loginInvoked := true } ∧
      ∀ t, CyberArkAuth.isAuthenticated
        (callGateway s fresh method params now (.response 401 body parsed)).session t
          = false) ∧
    (strTruthy s.accessToken = false →
      ∀ outcome, callGateway s fresh method params now outcome =
        { result := .error .authRequired,
          session := { s with oauthState := some fresh },
          loginInvoked := true }) := by
  constructor
  · intro htok
    constructor
    · unfold callGateway CyberArkAuth.getAccessToken CyberArkAuth.login CyberArkAuth.logout
      simp [htok]
    · intro t
      unfold callGateway CyberArkAuth.getAccessToken CyberArkAuth.login CyberArkAuth.logout
      simp [htok]
      unfold CyberArkAuth.isAuthenticated CyberArkAuth.getAccessToken
      simp [strTruthy]
  · intro htok outcome
    unfold callGateway CyberArkAuth.getAccessToken CyberArkAuth.login
    simp [htok]

/-- Witness for C2 as amended: concrete 401 with stored token T, and a
concrete call with empty storage. -/
theorem gateway_auth_failure_behavior_witness :
    callGateway
      { accessToken := some "T", refreshToken := none,
        tokenExpiry := some 99999, oauthState := none }
      "F" "tools/list" (Json.obj []) 5 (.response 401 "unauthorized" none) =
      { result := .error .sessionExpired,
        session := { accessToken := none, refreshToken := none,
                     tokenExpiry := none, oauthState := some "F" },
        loginInvoked := true } ∧
    callGateway CyberArkAuth.Session.empty
      "F" "tools/list" (Json.obj []) 5 (.response 401 "unauthorized" none) =
      { result := .error .authRequired,
        session := { CyberArkAuth.Session.empty with oauthState := some "F" },
        loginInvoked := true } := by
  constructor
  · exact ((gateway_auth_failure_behavior
      { accessToken := some "T", refreshToken := none,
        tokenExpiry := some 99999, oauthState := none }
      "F" "tools/list" (Json.obj []) 5 "unauthorized" none).1 rfl).1
  · exact (gateway_auth_failure_behavior CyberArkAuth.Session.empty
      "F" "tools/list" (Json.obj []) 5 "unauthorized" none).2 rfl
      (.response 401 "unauthorized" none)

end GatewayCallTheorems

section HealthTheorems

open ApiGateway

/-- Counterexample to C7: an outcome in which listTools() succeeds but
returns undefined (the gateway envelope contained no result key) makes
healthCheck report the error status, not the healthy status with a tool
count, because the tools property access inside the try block throws a
TypeError that the catch converts into the error report. -/
theorem healthCheck_undefined_result_counterexample :
    healthCheck (.ok none)
      = .errorStatus "TypeError: cannot read tools of undefined" ∧
    healthCheck (.ok none) ≠ .healthy "connected" 0 := by
  constructor
  · rfl
  · decide

/-- C7 as amended: healthCheck never raises - it returns a status object
for every outcome of listTools().  On a thrown failure with message m it
reports the error status carrying m.  On a success whose value is a JSON
object (the shape the gateway contract produces) it reports healthy with
the tool count tools.tools?.length, defaulting to 0 when the tools field
is absent; a success value that is undefined or null instead trips an
internally caught TypeError and is reported as an error status. -/
theorem healthCheck_total_spec :
    (∀ msg, healthCheck (.error msg) = .errorStatus msg) ∧
    (∀ fields, healthCheck (.ok (some (.obj fields)))
      = .healthy "connected" (jsLengthOrZero (Json.lookupField fields "tools"))) ∧
    (∀ outcome, healthCheck outcome = .errorStatus "TypeError: cannot read tools of undefined"
        ∨ healthCheck outcome = .errorStatus "TypeError: cannot read tools of null"
        ∨ (∃ msg, healthCheck outcome = .errorStatus msg)
        ∨ (∃ g n, healthCheck outcome = .healthy g n)) := by
  refine ⟨fun msg => rfl, fun fields => rfl, ?_⟩
  intro outcome
  match outcome with
  | .error msg => exact .inr (.inr (.inl ⟨msg, rfl⟩))
  | .ok none => exact .inl rfl
  | .ok (some .null) => exact .inr (.inl rfl)
  | .ok (some (.bool b)) => exact .inr (.inr (.inr ⟨"connected", _, rfl⟩))
  | .ok (some (.num n)) => exact .inr (.inr (.inr ⟨"connected", _, rfl⟩))
  | .ok (some (.str s)) => exact .inr (.inr (.inr ⟨"connected", _, rfl⟩))
  | .ok (some (.arr elems)) => exact .inr (.inr (.inr ⟨"connected", _, rfl⟩))
  | .ok (some (.obj fields)) => exact .inr (.inr (.inr ⟨"connected", _, rfl⟩))

/-- Witness for C7 as amended: a concrete failure message is echoed, and a
concrete success with a three-element tools array reports healthy 3. -/
theorem healthCheck_total_spec_witness :
    healthCheck (.error "Gateway error 500: boom") = .errorStatus "Gateway error 500: boom" ∧
    healthCheck (.ok (some (.obj [("tools", .arr [.obj [], .obj [], .obj []])])))
      = .healthy "connected" 3 := by
  constructor
  · exact healthCheck_total_spec.1 "Gateway error 500: boom"
  · exact healthCheck_total_spec.2.1 [("tools", .arr [.obj [], .obj [], .obj []])]

end HealthTheorems

section RefreshTheorems

open CyberArkAuthDoc

/-- Counterexample to C8: refreshAccessToken does not fail when no refresh
token is stored.  With every storage key absent, the request is still sent
(carrying the literal text null as the refresh token) and a token response
is accepted and stored: the call returns the new access token instead of
raising a refresh error. -/
theorem refresh_no_token_no_error_counterexample :
    (refreshAccessToken
      { accessToken := none, refreshToken := none, tokenExpiry := none,
        pkceVerifier := none, oauthState := none }
      1000 (.ok ⟨"A2", "R2", 3600⟩)).1 = .ok "A2" ∧
    refreshRequest
      { accessToken := none, refreshToken := none, tokenExpiry := none,
        pkceVerifier := none, oauthState := none } "client1"
      = { grant_type := "refresh_token", refresh_token := "null",
          client_id := "client1" } := by
  constructor <;> rfl

/-- C8 as amended: refreshAccessToken sends grant_type refresh_token with
whatever refresh token is stored (the literal text null when none is); it
checks neither that a refresh token exists nor that the exchange
succeeded, failing only when the response body fails to parse as JSON; on
a response carrying a token pair it overwrites the stored access token,
refresh token and expiry exactly as storeTokens does and returns the new
access token, after which getAccessToken returns that token (it being a
non-empty string) at every instant strictly before the new expiry. -/
theorem refreshAccessToken_spec (s : Session) (clientId : String)
    (now : Nat) (d : TokenData) (msg : String)
    (htok : d.access_token ≠ "") :
    (refreshRequest s clientId).grant_type = "refresh_token" ∧
    (refreshRequest s clientId).refresh_token = s.refreshToken.getD "null" ∧
    (refreshAccessToken s now (.error msg)) = (.error msg, s) ∧
    (refreshAccessToken s now (.ok d)).1 = .ok d.access_token ∧
    (refreshAccessToken s now (.ok d)).2
      = { s with accessToken := some d.access_token,
                 refreshToken := some d.refresh_token,
                 tokenExpiry := some (now + d.expires_in * 1000) } ∧
    (∀ t, t < now + d.expires_in * 1000 →
      getAccessToken (refreshAccessToken s now (.ok d)).2 t = some d.access_token) := by
  refine ⟨rfl, rfl, rfl, rfl, rfl, ?_⟩
  intro t ht
  unfold refreshAccessToken storeTokens getAccessToken
  simp [strTruthy, htok]
  omega

/-- Witness for C8 as amended: a concrete refresh with stored refresh
token R1 returns and stores A2/R2, and getAccessToken at time 3600999
still returns A2. -/
theorem refreshAccessToken_spec_witness :
    (refreshAccessToken
      { accessToken := some "A1", refreshToken := some "R1",
        tokenExpiry := some 500, pkceVerifier := none, oauthState := none }
      1000 (.ok ⟨"A2", "R2", 3600⟩)).1 = .ok "A2" ∧
    getAccessToken
      (refreshAccessToken
        { accessToken := some "A1", refreshToken := some "R1",
          tokenExpiry := some 500, pkceVerifier := none, oauthState := none }
        1000 (.ok ⟨"A2", "R2", 3600⟩)).2 3600999 = some "A2" := by
  constructor
  · exact (refreshAccessToken_spec
      { accessToken := some "A1", refreshToken := some "R1",
        tokenExpiry := some 500, pkceVerifier := none, oauthState := none }
      "client1" 1000 ⟨"A2", "R2", 3600⟩ "m" (by decide)).2.2.2.1
  · exact (refreshAccessToken_spec
      { accessToken := some "A1", refreshToken := some "R1",
        tokenExpiry := some 500, pkceVerifier := none, oauthState := none }
      "client1" 1000 ⟨"A2", "R2", 3600⟩ "m" (by decide)).2.2.2.2.2 3600999 (by decide)

end RefreshTheorems

section UnwrapTheorems

open ApiGateway

/-- Counterexample to C3: the code tests the output field with JavaScript
truthiness, not key presence.  For a well-formed envelope whose inner
payload parses to an object that has an output key bound to null, the
claim requires parsed.output (that is, null) to be returned, but the code
returns the whole parsed object unchanged. -/
theorem unwrap_falsy_output_counterexample :
    unwrapToolResult
      (some (.obj [("content", .arr [.obj [("text", .str "payload")]])]))
      (fun _ => some (.obj [("output", Json.null)]))
      = .ok (some (.obj [("output", Json.null)])) ∧
    Json.lookupField [("output", Json.null)] "output" = some Json.null ∧
    Json.obj [("output", Json.null)] ≠ Json.null := by
  refine ⟨rfl, rfl, fun h => Json.noConfusion h⟩

/-- C3 as amended: the unwrap applied by runCouncil and runDxO behaves as
follows.  When the content field of the result is falsy (in particular
absent), or its first element's text is falsy (in particular absent), the
result is returned unchanged.  Otherwise the text is parsed as JSON: a
parse failure raises the malformed-response error (the raw string is never
silently returned), and so does a parse that yields null, because the
subsequent output-property access throws inside the same try block.  On a
successful parse of a non-null value, parsed.output is returned when it is
truthy, and the parsed value itself is returned otherwise - so an output
key bound to a falsy value (null, false, 0, the empty string) does not
select the output branch.  An undefined result makes the content access
throw an uncaught TypeError. -/
theorem unwrap_spec (r c tv p : Json) (parse : Json → Option Json) :
    (r ≠ .null → Json.truthyOpt (r.getProp "content") = false →
      unwrapToolResult (some r) parse = .ok (some r)) ∧
    (r.getProp "content" = some c →
      Json.truthyOpt (optChainProp c.index0 "text") = false →
      unwrapToolResult (some r) parse = .ok (some r)) ∧
    (r.getProp "content" = some c → c.truthy = true →
      optChainProp c.index0 "text" = some tv → tv.truthy = true →
      ((parse tv = none →
          unwrapToolResult (some r) parse = .error "Invalid response format from agent") ∧
       (parse tv = some .null →
          unwrapToolResult (some r) parse = .error "Invalid response format from agent") ∧
       (parse tv = some p → p ≠ .null → Json.truthyOpt (p.getProp "output") = true →
          unwrapToolResult (some r) parse = .ok (p.getProp "output")) ∧
       (parse tv = some p → p ≠ .null → Json.truthyOpt (p.getProp "output") = false →
          unwrapToolResult (some r) parse = .ok (some p)))) ∧
    unwrapToolResult none parse = .error "TypeError: cannot read content of undefined" := by
  have hnull : ∀ j, j ≠ Json.null →
      (match j with
       | Json.null => true
       | _ => false) = false := by
    intro j hj
    cases j <;> simp_all
  refine ⟨?_, ?_, ?_, rfl⟩
  · intro hr hfalsy
    cases r <;> simp_all [unwrapToolResult]
  · intro hcontent htext
    cases r with
    | obj fields =>
      simp only [Json.getProp] at hcontent
      simp only [unwrapToolResult, Json.getProp, hcontent]
      cases hct : c.truthy with
      | false => simp [Json.truthyOpt, hct]
      | true =>
        simp only [Json.truthyOpt, hct, if_pos]
        cases hopt : optChainProp c.index0 "text" with
        | none => simp
        | some tv2 =>
          rw [hopt] at htext
          simp only [Json.truthyOpt] at htext
          simp [htext]
    | null => simp [Json.getProp] at hcontent
    | bool b => simp [Json.getProp] at hcontent
    | num n => simp [Json.getProp] at hcontent
    | str s => simp [Json.getProp] at hcontent
    | arr elems => simp [Json.getProp] at hcontent
  · intro hcontent hct htext htvt
    cases r with
    | obj fields =>
      simp only [Json.getProp] at hcontent
      simp only [unwrapToolResult, Json.getProp, hcontent, Json.truthyOpt, hct,
        if_pos, htext, htvt]
      refine ⟨?_, ?_, ?_, ?_⟩
      · intro hparse; simp [hparse]
      · intro hparse; simp [hparse]
      · intro hparse hp hout
        cases p <;> simp_all
      · intro hparse hp hout
        cases p <;> simp_all
    | null => simp [Json.getProp] at hcontent
    | bool b => simp [Json.getProp] at hcontent
    | num n => simp [Json.getProp] at hcontent
    | str s => simp [Json.getProp] at hcontent
    | arr elems => simp [Json.getProp] at hcontent

/-- Witness for C3 as amended: on the concrete envelope whose text parses
to an object with a truthy output object, the unwrap returns the output
value. -/
theorem unwrap_spec_witness :
    unwrapToolResult
      (some (.obj [("content", .arr [.obj [("text", .str "payload")]])]))
      (fun _ => some (.obj [("output", .obj [("question", .str "Q")])]))
      = .ok (some (.obj [("question", .str "Q")])) :=
  ((unwrap_spec (.obj [("content", .arr [.obj [("text", .str "payload")]])])
      (.arr [.obj [("text", .str "payload")]])
      (.str "payload")
      (.obj [("output", .obj [("question", .str "Q")])])
      (fun _ => some (.obj [("output", .obj [("question", .str "Q")])]))).2.2.1
    rfl rfl rfl rfl).2.2.1 rfl (fun h => Json.noConfusion h) rfl

end UnwrapTheorems

section RpcIdTheorems

open ApiGateway

/-- Decimal digit characters are never the dash separator. -/
theorem digitChar_ne_dash (d : Nat) (h : d < 10) : Nat.digitChar d ≠ '-' := by
  interval_cases d <;> decide

/-- Code-point value of a decimal digit character recovers the digit. -/
theorem digitChar_val (d : Nat) (h : d < 10) : (Nat.digitChar d).toNat - 48 = d := by
  interval_cases d <;> decide

/-- Appending one digit character multiplies the value by ten and adds the
digit. -/
theorem decValue_append_digit (cs : List Char) (c : Char) :
    decValue (cs ++ [c]) = decValue cs * 10 + (c.toNat - 48) := by
  simp [decValue, List.foldl_append]

/-- The decimal rendering round-trips: reading the digits back yields the
rendered number, for any sufficient fuel. -/
theorem decValue_toDecimalCore : ∀ fuel n, n < fuel →
    decValue (toDecimalCore fuel n) = n := by
  intro fuel
  induction fuel with
  | zero => intro n hn; omega
  | succ f ih =>
    intro n hn
    unfold toDecimalCore
    by_cases h10 : n < 10
    · simp only [h10, if_pos]
      simp [decValue, digitChar_val n h10]
    · simp only [h10, if_neg, not_false_iff]
      rw [decValue_append_digit]
      have hdiv : n / 10 < f := by
        have h1 : n / 10 < n := Nat.div_lt_self (by omega) (by omega)
        omega
      rw [ih (n / 10) hdiv, digitChar_val (n % 10) (Nat.mod_lt n (by omega))]
      omega

/-- The decimal rendering of naturals is injective. -/
theorem natDecimal_inj (m n : Nat) (h : natDecimal m = natDecimal n) : m = n := by
  have hdata : toDecimalCore (m + 1) m = toDecimalCore (n + 1) n := by
    have := congrArg String.data h
    simpa [natDecimal] using this
  have hm := decValue_toDecimalCore (m + 1) m (by omega)
  have hn := decValue_toDecimalCore (n + 1) n (by omega)
  rw [← hm, ← hn, hdata]

/-- Every character of the decimal rendering is a digit character. -/
theorem mem_toDecimalCore : ∀ fuel n c, c ∈ toDecimalCore fuel n →
    ∃ d, d < 10 ∧ c = Nat.digitChar d := by
  intro fuel
  induction fuel with
  | zero => intro n c hc; simp [toDecimalCore] at hc
  | succ f ih =>
    intro n c hc
    unfold toDecimalCore at hc
    by_cases h10 : n < 10
    · simp only [h10, if_pos, List.mem_singleton] at hc
      exact ⟨n, h10, hc⟩
    · simp only [h10, if_neg, not_false_iff, List.mem_append, List.mem_singleton] at hc
      rcases hc with hc | hc
      · exact ih (n / 10) c hc
      · exact ⟨n % 10, Nat.mod_lt n (by omega), hc⟩

/-- The dash separator never occurs in a decimal rendering. -/
theorem natDecimal_no_dash (n : Nat) : '-' ∉ (natDecimal n).data := by
  intro hmem
  obtain ⟨d, hd, heq⟩ := mem_toDecimalCore (n + 1) n '-' hmem
  exact digitChar_ne_dash d hd heq.symm

/-- Splitting two equal lists at a separator absent from both suffixes
yields equal prefixes and equal suffixes. -/
theorem append_sep_inj (sep : Char) :
    ∀ (xs xs2 ys ys2 : List Char), sep ∉ ys → sep ∉ ys2 →
    xs ++ sep :: ys = xs2 ++ sep :: ys2 → xs = xs2 ∧ ys = ys2 := by
  intro xs
  induction xs with
  | nil =>
    intro xs2 ys ys2 hy hy2 h
    cases xs2 with
    | nil =>
      simp only [List.nil_append, List.cons.injEq] at h
      exact ⟨rfl, h.2⟩
    | cons b t =>
      simp only [List.nil_append, List.cons_append, List.cons.injEq] at h
      exact absurd (h.2 ▸ List.mem_append_right t (List.mem_cons_self sep ys2)) hy
  | cons a t ih =>
    intro xs2 ys ys2 hy hy2 h
    cases xs2 with
    | nil =>
      simp only [List.nil_append, List.cons_append, List.cons.injEq] at h
      exact absurd (h.2.symm ▸ List.mem_append_right t (List.mem_cons_self sep ys)) hy2
    | cons b t2 =>
      simp only [List.cons_append, List.cons.injEq] at h
      obtain ⟨he, ht⟩ := h
      obtain ⟨h1, h2⟩ := ih t2 ys ys2 hy hy2 ht
      exact ⟨by rw [he, h1], h2⟩

/-- Counterexample to C9: ids are not unique per call.  Two distinct
invocations - the same method tools/call in the same millisecond with
different params - receive the same id, because the id is built from the
method name and the timestamp only. -/
theorem rpc_id_collision_counterexample :
    invocationId ⟨"tools/call", Json.obj [], 1700000000000⟩
      = invocationId ⟨"tools/call", Json.obj [("question", Json.str "X")], 1700000000000⟩ ∧
    (⟨"tools/call", Json.obj [], 1700000000000⟩ : Invocation)
      ≠ ⟨"tools/call", Json.obj [("question", Json.str "X")], 1700000000000⟩ := by
  constructor
  · rfl
  · intro h
    injection h with h1 h2 h3
    injection h2 with h4
    exact List.noConfusion h4

/-- C9 as amended: the id of a callGateway invocation is derived from the
method name and the timestamp alone, and it identifies invocations exactly
up to that pair: two envelope ids are equal if and only if the two
invocations share both the method name and the `Date.now()` millisecond.
In particular ids differ across different methods or different
milliseconds, but two same-method calls within one millisecond collide. -/
theorem invocationId_eq_iff (i1 i2 : Invocation) :
    invocationId i1 = invocationId i2 ↔ i1.method = i2.method ∧ i1.time = i2.time := by
  constructor
  · intro h
    have hdata : i1.method.data ++ '-' :: (natDecimal i1.time).data
        = i2.method.data ++ '-' :: (natDecimal i2.time).data := by
      have := congrArg String.data h
      simpa [invocationId, rpcId, List.append_assoc] using this
    obtain ⟨hm, hd⟩ := append_sep_inj '-' _ _ _ _
      (natDecimal_no_dash i1.time) (natDecimal_no_dash i2.time) hdata
    refine ⟨String.ext hm, natDecimal_inj _ _ ?_⟩
    exact String.ext hd
  · intro ⟨hm, ht⟩
    simp [invocationId, rpcId, hm, ht]

end RpcIdTheorems

/-- Witness for C9 as amended: two same-method invocations one millisecond
apart receive different ids. -/
theorem invocationId_eq_iff_witness :
    ApiGateway.invocationId ⟨"tools/list", Json.obj [], 1700000000000⟩
      ≠ ApiGateway.invocationId ⟨"tools/list", Json.obj [], 1700000000001⟩ := by
  intro h
  have hpair := (invocationId_eq_iff
    ⟨"tools/list", Json.obj [], 1700000000000⟩
    ⟨"tools/list", Json.obj [], 1700000000001⟩).mp h
  exact absurd hpair.2 (by decide)
